import Mathlib

/-!
Shallow embedding of the grapefruit Tiled map decoding core
(src/map/tiled/TiledTileset.js and src/map/tiled/TiledMap.js), together
with theorems checking its natural-language specification.

Conventions used throughout:
* JS numbers that only ever hold integral values are embedded as Int
  (Nat for packed 32-bit gid values); map-level arithmetic that can
  produce fractions uses Rat, and none : Option Rat stands for NaN.
* JS bitwise operators act on 32-bit operands; the bitwise NOT of the
  source is embedded as XOR with 0xFFFFFFFF.  The flag-extraction
  values tileId AND flag are kept as Nat (the JS engine would present
  the bit-31 mask as a negative int32, with the same truthiness).
* A JS throw during construction is embedded as Except String.
* In-place mutation of the per-tile property cache is embedded by
  returning an updated tileset record alongside the query result.
-/

namespace Grapefruit

/-- Flag constant FlippedX of gf.TiledTileset.FLAGS (TiledTileset.js line 235). -/
def FLAGS_FlippedX : Nat := 0x80000000

/-- Flag constant FlippedY of gf.TiledTileset.FLAGS (TiledTileset.js line 236). -/
def FLAGS_FlippedY : Nat := 0x40000000

/-- Flag constant RotatedCW of gf.TiledTileset.FLAGS (TiledTileset.js line 237). -/
def FLAGS_RotatedCW : Nat := 0x20000000

/-- Removal of the three flag bits, as the source writes it:
tileId AND NOT(FlippedX OR FlippedY OR RotatedCW); on 32-bit operands
bitwise NOT is XOR with 0xFFFFFFFF. -/
def unflag (gid : Nat) : Nat :=
  gid &&& (0xFFFFFFFF ^^^ (FLAGS_FlippedX ||| FLAGS_FlippedY ||| FLAGS_RotatedCW))

/-- Decoded form of a packed gid: the raw id plus the three transform
flags (the GidCodec of the spec; extraction sequence of
getTileProperties, TiledTileset.js lines 169-175).  The JS code keeps
the raw masked numbers, truthy exactly when the bit is set; the flags
are booleanized here accordingly. -/
structure DecodedGid where
  rawId : Nat
  flippedX : Bool
  flippedY : Bool
  rotatedCW : Bool
deriving DecidableEq

/-- Decode of a packed 32-bit gid, mirroring TiledTileset.js lines 169-175. -/
def decodeGid (gid : Nat) : DecodedGid :=
  { rawId := unflag gid
    flippedX := gid &&& FLAGS_FlippedX != 0
    flippedY := gid &&& FLAGS_FlippedY != 0
    rotatedCW := gid &&& FLAGS_RotatedCW != 0 }

/-- The 32-bit value formed from a 29-bit raw id by setting a chosen
combination of the three flag bits.  The flag constants are distinct
powers of two at bits 29 and above, so for rawId below 2 ^ 29 this
addition sets exactly the chosen bits. -/
def withFlags (rawId : Nat) (fx fy fr : Bool) : Nat :=
  rawId + (if fx then FLAGS_FlippedX else 0)
        + (if fy then FLAGS_FlippedY else 0)
        + (if fr then FLAGS_RotatedCW else 0)

/-- The flag-removal mask reduces to the low 29 bits, so unflag is
reduction modulo 2 ^ 29. -/
theorem unflag_eq_mod (gid : Nat) : unflag gid = gid % 2 ^ 29 := by
  have h : (0xFFFFFFFF ^^^ (FLAGS_FlippedX ||| FLAGS_FlippedY ||| FLAGS_RotatedCW))
      = 2 ^ 29 - 1 := by decide
  rw [unflag, h, Nat.and_pow_two_sub_one_eq_mod]

/-- Masking with a single power of two keeps exactly that bit. -/
theorem and_two_pow_eq (x k : Nat) :
    x &&& 2 ^ k = if x.testBit k then 2 ^ k else 0 := by
  apply Nat.eq_of_testBit_eq
  intro i
  rw [Nat.testBit_and]
  by_cases hk : k = i
  · subst hk
    cases h : x.testBit k <;> simp [h, Nat.testBit_two_pow]
  · cases h : x.testBit k <;>
      simp [h, Nat.testBit_two_pow, hk, Nat.zero_testBit]

/-- The single-bit mask is nonzero exactly when that bit of the operand
is set, phrased through division and remainder. -/
theorem and_two_pow_ne_zero_iff (x k : Nat) :
    (x &&& 2 ^ k ≠ 0) ↔ x / 2 ^ k % 2 = 1 := by
  have ht := Nat.testBit_to_div_mod (x := x) (i := k)
  rw [and_two_pow_eq]
  cases h : x.testBit k
  · rw [h] at ht
    have hd : ¬ (x / 2 ^ k % 2 = 1) := by simpa using ht.symm
    simp [h, hd]
  · rw [h] at ht
    have hd : x / 2 ^ k % 2 = 1 := by simpa using ht.symm
    simp [h, hd, (Nat.two_pow_pos k).ne']

/-- Literal form of the mask removal: unflag keeps the value modulo 0x20000000. -/
theorem unflag_eq_mod_lit (gid : Nat) : unflag gid = gid % 0x20000000 := by
  have h := unflag_eq_mod gid
  norm_num at h
  exact h

/-- Literal form of the bit-31 mask test. -/
theorem and_bit31_iff (x : Nat) :
    (x &&& 0x80000000 ≠ 0) ↔ x / 0x80000000 % 2 = 1 := by
  have h := and_two_pow_ne_zero_iff x 31
  norm_num at h
  exact h

/-- Literal form of the bit-30 mask test. -/
theorem and_bit30_iff (x : Nat) :
    (x &&& 0x40000000 ≠ 0) ↔ x / 0x40000000 % 2 = 1 := by
  have h := and_two_pow_ne_zero_iff x 30
  norm_num at h
  exact h

/-- Literal form of the bit-29 mask test. -/
theorem and_bit29_iff (x : Nat) :
    (x &&& 0x20000000 ≠ 0) ↔ x / 0x20000000 % 2 = 1 := by
  have h := and_two_pow_ne_zero_iff x 29
  norm_num at h
  exact h

/-- C4: gid flag decoding round-trips.  For every 29-bit raw id r and
every combination of the three flag bits (FlippedX at bit 31, FlippedY
at bit 30, RotatedCW at bit 29), decoding the 32-bit value formed by r
with those flag bits set yields rawId r and exactly those flags; and
decoding any gid produces a rawId inside the 29-bit raw-id domain
(decoding is total, every 32-bit value decodes). -/
theorem c4_gid_flag_roundtrip (r : Nat) (fx fy fr : Bool) (g : Nat)
    (hr : r < 2 ^ 29) :
    decodeGid (withFlags r fx fy fr) = ⟨r, fx, fy, fr⟩ ∧
    (decodeGid g).rawId < 2 ^ 29 := by
  have hr' : r < 0x20000000 := by norm_num at hr ⊢; exact hr
  constructor
  · rcases fx <;> rcases fy <;> rcases fr <;>
      (simp [decodeGid, withFlags, DecodedGid.mk.injEq, FLAGS_FlippedX,
        FLAGS_FlippedY, FLAGS_RotatedCW, unflag_eq_mod_lit]
       repeat' apply And.intro) <;>
      first
        | omega
        | exact (and_bit31_iff _).mpr (by omega)
        | exact (and_bit30_iff _).mpr (by omega)
        | exact (and_bit29_iff _).mpr (by omega)
        | (by_contra hne; exact absurd ((and_bit31_iff _).mp hne) (by omega))
        | (by_contra hne; exact absurd ((and_bit30_iff _).mp hne) (by omega))
        | (by_contra hne; exact absurd ((and_bit29_iff _).mp hne) (by omega))
  · show unflag g < 2 ^ 29
    rw [unflag_eq_mod]
    exact Nat.mod_lt _ (Nat.two_pow_pos 29)

/-- Witness for C4 at the concrete raw id 3 with FlippedX and RotatedCW set. -/
theorem c4_gid_flag_roundtrip_witness :
    (3 : Nat) < 2 ^ 29 ∧
    decodeGid (withFlags 3 true false true) = ⟨3, true, false, true⟩ ∧
    (decodeGid 7).rawId < 2 ^ 29 := by
  refine ⟨by norm_num, ?_, ?_⟩
  · exact (c4_gid_flag_roundtrip 3 true false true 7 (by norm_num)).1
  · exact (c4_gid_flag_roundtrip 3 true false true 7 (by norm_num)).2

/-- Accumulating parse of a run of decimal digits; fails on any
non-digit character. -/
def digitsAux : List Char → Nat → Option Nat
  | [], acc => some acc
  | c :: rest, acc =>
    if c.isDigit then digitsAux rest (acc * 10 + (c.toNat - 48)) else none

/-- Parse of a nonempty run of decimal digits. -/
def parseDigits : List Char → Option Nat
  | [] => none
  | c :: rest => digitsAux (c :: rest) 0

/-- Grouping of a character list at every dot separator. -/
def splitAtDot : List Char → List (List Char)
  | [] => [[]]
  | c :: rest =>
    if c = '.' then [] :: splitAtDot rest
    else
      match splitAtDot rest with
      | [] => [[c]]
      | g :: gs => (c :: g) :: gs

/-- Modelled from the spec: the numeric half of the property coercion of
gf.utils.parseTiledProperties, which is not under src/.  A string is
numeric-looking when it is a decimal numeral with an optional fractional
part; it is then read as the corresponding rational. -/
def parseNumeric (s : String) : Option ℚ :=
  match splitAtDot s.data with
  | [a] => (parseDigits a).map (fun n => (n : ℚ))
  | [a, b] =>
    match parseDigits a, parseDigits b with
    | some n, some f => some ((n : ℚ) + (f : ℚ) / ((10 : ℚ) ^ b.length))
    | _, _ => none
  | _ => none

/-- A type-coerced custom-property value: a boolean, a number, or a
string passed through unchanged. -/
inductive PropVal where
  | pbool (b : Bool)
  | pnum (q : ℚ)
  | pstr (s : String)
deriving DecidableEq

/-- Modelled from the spec: per-entry coercion of
gf.utils.parseTiledProperties (not under src/): the strings true and
false become booleans, a numeric-looking string becomes a number, any
other string passes through unchanged. -/
def parseTiledProperty (s : String) : PropVal :=
  if s = "true" then PropVal.pbool true
  else if s = "false" then PropVal.pbool false
  else
    match parseNumeric s with
    | some q => PropVal.pnum q
    | none => PropVal.pstr s

/-- Modelled from the spec: gf.utils.parseTiledProperties (not under
src/) maps the coercion over all entries; on a missing object it
returns undefined, embedded as none. -/
def parseTiledProperties :
    Option (List (String × String)) → Option (List (String × PropVal))
  | none => none
  | some l => some (l.map (fun p => (p.1, parseTiledProperty p.2)))

/-- JS truthiness of a coerced property value (false, 0 and the empty
string are falsy). -/
def truthy : PropVal → Bool
  | PropVal.pbool b => b
  | PropVal.pnum q => q != 0
  | PropVal.pstr s => s != ""

/-- JS expression v OR d for a possibly-undefined property value v:
undefined or falsy v yields the default d. -/
def jsOr (v : Option PropVal) (d : PropVal) : PropVal :=
  match v with
  | none => d
  | some x => if truthy x then x else d

/-- JS ToNumber coercion of a coerced property value; none stands for
NaN.  A non-numeric non-empty string coerces to NaN. -/
def toNumber : PropVal → Option ℚ
  | PropVal.pnum q => some q
  | PropVal.pbool b => some (if b then 1 else 0)
  | PropVal.pstr s => if s = "" then some 0 else parseNumeric s

/-- Modelled from the spec: the tile-type enum gf.Tile.TYPE (not under
src/); only its NONE member is relied on here. -/
inductive TileType where
  | NONE
  | tag (s : String)
deriving DecidableEq

/-- A per-tile property record as stored in the per-tile
cache.  The three flip/rotate fields are absent (none) until a
getTileProperties call writes them; the JS engine would present the
bit-31 mask value as a negative int32 with the same truthiness as the
Nat kept here. -/
structure TileProps where
  collidable : Bool
  breakable : Bool
  type : TileType
  flippedX : Option Nat := none
  flippedY : Option Nat := none
  rotatedCW : Option Nat := none
deriving DecidableEq

/-- The default record synthesized by getTileProperties for a local
index with no authored properties (TiledTileset.js lines 186-190). -/
def defaultTileProps : TileProps :=
  { collidable := false, breakable := false, type := TileType.NONE }

/-- Lookup in the per-tile property cache (a JS object keyed by the
local tile index). -/
def cacheGet : List (Int × TileProps) → Int → Option TileProps
  | [], _ => none
  | p :: rest, k => if p.1 = k then some p.2 else cacheGet rest k

/-- Store into the per-tile property cache, replacing any existing
entry under the same local index. -/
def cacheSet : List (Int × TileProps) → Int → TileProps → List (Int × TileProps)
  | [], k, v => [(k, v)]
  | p :: rest, k, v => if p.1 = k then (k, v) :: rest else p :: cacheSet rest k v

/-- Reading a freshly stored cache entry returns the stored record. -/
theorem cacheGet_cacheSet_self (c : List (Int × TileProps)) (k : Int) (v : TileProps) :
    cacheGet (cacheSet c k v) k = some v := by
  induction c with
  | nil => simp [cacheGet, cacheSet]
  | cons p rest ih =>
    by_cases h : p.1 = k
    · simp [cacheGet, cacheSet, h]
    · simp [cacheGet, cacheSet, h, ih]

/-- Storing under one key leaves entries under other keys unchanged. -/
theorem cacheGet_cacheSet_ne (c : List (Int × TileProps)) (k k' : Int) (v : TileProps)
    (h : k ≠ k') : cacheGet (cacheSet c k v) k' = cacheGet c k' := by
  induction c with
  | nil => simp [cacheGet, cacheSet, h]
  | cons p rest ih =>
    by_cases hp : p.1 = k
    · simp [cacheGet, cacheSet, hp, h]
    · by_cases hp' : p.1 = k'
      · simp [cacheGet, cacheSet, hp, hp', Ne.symm h]
      · simp [cacheGet, cacheSet, hp, hp', ih]

/-- A rectangular sub-texture view over the shared atlas (the PIXI
rectangle handed to each per-tile texture). -/
structure Rect where
  x : Int
  y : Int
  width : Int
  height : Int
deriving DecidableEq

/-- A preloaded atlas image resource (baseTexture.source): only its
pixel dimensions matter to this core. -/
structure Image where
  width : Int
  height : Int
deriving DecidableEq

/-- A tileset descriptor as it appears in the map document. -/
structure TilesetSettings where
  firstgid : Int
  name : String
  tilewidth : Int
  tileheight : Int
  spacing : Option Int := none
  margin : Option Int := none
  tileoffset : Option (Int × Int) := none
  imagewidth : Int := 0
  imageheight : Int := 0
  properties : Option (List (String × String)) := none
  tileproperties : List (Int × TileProps) := []
deriving DecidableEq

/-- The constructed tileset state (gf.TiledTileset).  The authored
per-tile records arrive already type-coerced; the per-entry coercion
pass of the constructor is the identity on them in this embedding. -/
structure Tileset where
  firstgid : Int
  name : String
  tileSize : Int × Int
  spacing : Int
  margin : Int
  tileoffset : Int × Int
  numTiles : Int × Int
  lastgid : Int
  properties : List (String × PropVal)
  tileproperties : List (Int × TileProps)
  size : Int × Int
  textures : List Rect
deriving DecidableEq

/-- JS expression n OR 0 on an integer (0 is falsy). -/
def jsOrZeroInt (n : Int) : Int := if n = 0 then 0 else n

/-- One dimension of the tile-grid computation of TiledTileset.js lines
85-88: double-tilde truncates toward zero, and truncating the JS result
of dividing by zero (infinity or NaN) gives 0, both matching Int.tdiv. -/
def numTilesDim (imageDim margin tileDim spacing : Int) : Int :=
  Int.tdiv (imageDim - margin) (tileDim - spacing)

/-- The tileset state built once the atlas lookup has succeeded
(TiledTileset.js constructor body after line 16). -/
def buildTilesetCore (img : Image) (settings : TilesetSettings) : Tileset :=
  let spacing := settings.spacing.getD 0
  let margin := settings.margin.getD 0
  let numTilesX := numTilesDim img.width margin settings.tilewidth spacing
  let numTilesY := numTilesDim img.height margin settings.tileheight spacing
  let lastgid := settings.firstgid + jsOrZeroInt (numTilesX * numTilesY - 1)
  { firstgid := settings.firstgid
    name := settings.name
    tileSize := (settings.tilewidth, settings.tileheight)
    spacing := spacing
    margin := margin
    tileoffset :=
      match settings.tileoffset with
      | some o => o
      | none => (0, 0)
    numTiles := (numTilesX, numTilesY)
    lastgid := lastgid
    properties := (parseTiledProperties settings.properties).getD []
    tileproperties := settings.tileproperties
    size := (settings.imagewidth, settings.imageheight)
    textures :=
      (List.range (lastgid - settings.firstgid + 1).toNat).map
        (fun t =>
          let y := Int.tdiv (t : Int) numTilesX
          let x := (t : Int) - y * numTilesX
          { x := x * settings.tilewidth + x * spacing + margin
            y := y * settings.tileheight + y * spacing + margin
            width := settings.tilewidth
            height := settings.tileheight : Rect }) }

/-- The TiledTileset constructor: it throws unless the asset cache holds
an entry under name_texture (TiledTileset.js lines 14-16), and otherwise
builds the tileset state. -/
def buildTileset (assetCache : String → Option Image) (settings : TilesetSettings) :
    Except String Tileset :=
  match assetCache (settings.name ++ "_texture") with
  | none =>
    Except.error
      "You must preload the tileset images! Try loading the world file with the AssetLoader"
  | some img => Except.ok (buildTilesetCore img settings)

/-- Characterization of a successful tileset build. -/
theorem buildTileset_ok_iff (assetCache : String → Option Image)
    (settings : TilesetSettings) (ts : Tileset) :
    buildTileset assetCache settings = Except.ok ts ↔
      ∃ img, assetCache (settings.name ++ "_texture") = some img ∧
        ts = buildTilesetCore img settings := by
  cases hc : assetCache (settings.name ++ "_texture") with
  | none => simp [buildTileset, hc]
  | some img => simp [buildTileset, hc, eq_comm]

/-- Per-tile property query (TiledTileset.js lines 166-197).  The JS
method mutates the cached record in place (the default record is stored
on a miss, and the flip/rotate fields are overwritten on the record
about to be returned, which aliases the cache entry); the mutation is
embedded by returning the updated tileset alongside the result.  An
undefined argument is embedded as none. -/
def Tileset.getTileProperties (ts : Tileset) (tileId : Option Nat) :
    Option TileProps × Tileset :=
  match tileId with
  | none => (none, ts)
  | some gid =>
    let flippedX := gid &&& FLAGS_FlippedX
    let flippedY := gid &&& FLAGS_FlippedY
    let rotatedCW := gid &&& FLAGS_RotatedCW
    let localId : Int := (unflag gid : Int) - ts.firstgid
    if localId < 0 then (none, ts)
    else
      let base := (cacheGet ts.tileproperties localId).getD defaultTileProps
      let props :=
        { base with
          flippedX := some flippedX
          flippedY := some flippedY
          rotatedCW := some rotatedCW }
      (some props, { ts with tileproperties := cacheSet ts.tileproperties localId props })

/-- Per-tile texture query (TiledTileset.js lines 205-219).  Reading the
texture array past its end yields undefined in JS; both the explicit
null returns and that undefined are embedded as none. -/
def Tileset.getTileTexture (ts : Tileset) (tileId : Option Nat) : Option Rect :=
  match tileId with
  | none => none
  | some gid =>
    let localId : Int := (unflag gid : Int) - ts.firstgid
    if localId < 0 then none
    else ts.textures[localId.toNat]?

/-- Ownership test of a gid (TiledTileset.js lines 221-230): two-sided
range check after removing the flags. -/
def Tileset.contains (ts : Tileset) (tileId : Option Nat) : Bool :=
  match tileId with
  | none => false
  | some gid =>
    decide (ts.firstgid ≤ (unflag gid : Int)) && decide ((unflag gid : Int) ≤ ts.lastgid)

/-- The guard n OR 0 is the identity on integers: its only falsy
integer input is 0 itself, which it maps to 0. -/
theorem jsOrZeroInt_eq (n : Int) : jsOrZeroInt n = n := by
  unfold jsOrZeroInt
  split <;> omega

/-- Demo asset cache holding a degenerate zero-by-zero atlas. -/
def zeroCache : String → Option Image :=
  fun k => if k = "z_texture" then some { width := 0, height := 0 } else none

/-- Descriptor of a tileset whose computed tile grid is empty. -/
def zeroSettings : TilesetSettings :=
  { firstgid := 5, name := "z", tilewidth := 32, tileheight := 32 }

/-- Counterexample to C2 as stated: a tileset built over a 0x0 atlas has
numTiles product 0, yet its lastgid comes out as firstgid - 1 = 4, not
firstgid = 5, because the guard (product - 1) OR 0 only replaces an
exact 0 and -1 is truthy. -/
theorem c2_lastgid_counterexample :
    (buildTileset zeroCache zeroSettings).map
        (fun ts => (ts.numTiles.1 * ts.numTiles.2, ts.lastgid, ts.firstgid))
      = Except.ok ((0 : Int), (4 : Int), (5 : Int)) ∧ (4 : Int) ≠ 5 := by
  constructor
  · rfl
  · decide

/-- C2 (amended): every constructed tileset satisfies
lastgid = firstgid + numTiles.x * numTiles.y - 1 unconditionally, so a
zero tile product gives lastgid = firstgid - 1 (not firstgid); such a
degenerate tileset is still built without error and has an empty
textures list. -/
theorem c2_lastgid_invariant (assetCache : String → Option Image)
    (settings : TilesetSettings) (ts : Tileset)
    (h : buildTileset assetCache settings = Except.ok ts) :
    ts.lastgid = ts.firstgid + ts.numTiles.1 * ts.numTiles.2 - 1 ∧
    (ts.numTiles.1 * ts.numTiles.2 = 0 → ts.textures = []) := by
  obtain ⟨img, hc, rfl⟩ := (buildTileset_ok_iff assetCache settings ts).mp h
  simp only [buildTilesetCore, jsOrZeroInt_eq]
  constructor
  · omega
  · intro hp
    rw [hp]
    norm_num

/-- Witness for C2 at the concrete degenerate tileset. -/
theorem c2_lastgid_invariant_witness :
    buildTileset zeroCache zeroSettings = Except.ok (buildTilesetCore { width := 0, height := 0 } zeroSettings) ∧
    (buildTilesetCore { width := 0, height := 0 } zeroSettings).lastgid
        = (buildTilesetCore { width := 0, height := 0 } zeroSettings).firstgid
          + (buildTilesetCore { width := 0, height := 0 } zeroSettings).numTiles.1
            * (buildTilesetCore { width := 0, height := 0 } zeroSettings).numTiles.2 - 1 ∧
    ((buildTilesetCore { width := 0, height := 0 } zeroSettings).numTiles.1
        * (buildTilesetCore { width := 0, height := 0 } zeroSettings).numTiles.2 = 0 →
      (buildTilesetCore { width := 0, height := 0 } zeroSettings).textures = []) := by
  refine ⟨by rfl, ?_, ?_⟩
  · exact (c2_lastgid_invariant zeroCache zeroSettings _ (by rfl)).1
  · exact (c2_lastgid_invariant zeroCache zeroSettings _ (by rfl)).2

/-- C9: each dimension of the tile grid is the floor of
(atlas dimension - margin) / (tile dimension - spacing), on the domain
where the margin fits the atlas and the spacing is below the tile
dimension (there the truncation of the source coincides with floor). -/
theorem c9_numTiles_floor (imageDim margin tileDim spacing : Int)
    (h1 : margin ≤ imageDim) (h2 : spacing < tileDim) :
    numTilesDim imageDim margin tileDim spacing
      = ⌊((imageDim - margin : Int) : ℚ) / ((tileDim - spacing : Int) : ℚ)⌋ := by
  have hn : (0 : Int) ≤ imageDim - margin := by omega
  have hd : (0 : Int) < tileDim - spacing := by omega
  have key := Rat.floor_intCast_div_natCast (imageDim - margin) ((tileDim - spacing).toNat)
  have hq : (((tileDim - spacing).toNat : ℕ) : ℚ) = ((tileDim - spacing : Int) : ℚ) := by
    rw [← Int.cast_natCast, Int.toNat_of_nonneg hd.le]
  rw [hq, Int.toNat_of_nonneg hd.le] at key
  rw [numTilesDim, Int.tdiv_eq_ediv hn hd.le, ← key]

/-- Witness for C9 at the two grid-sizing examples of the spec:
atlas width 258 with margin 2, spacing 2, tile width 32 gives 8, and
atlas width 256 with margin 0, spacing 0, tile width 32 gives 8. -/
theorem c9_numTiles_floor_witness :
    (2 : Int) ≤ 258 ∧ (2 : Int) < 32 ∧
    numTilesDim 258 2 32 2 = ⌊((258 - 2 : Int) : ℚ) / ((32 - 2 : Int) : ℚ)⌋ ∧
    numTilesDim 258 2 32 2 = 8 ∧ numTilesDim 256 0 32 0 = 8 := by
  refine ⟨by norm_num, by norm_num, ?_, by decide, by decide⟩
  exact c9_numTiles_floor 258 2 32 2 (by norm_num) (by norm_num)

/-- Unfolded form of the property query on a defined gid. -/
theorem getTileProperties_some (ts : Tileset) (g : Nat) :
    ts.getTileProperties (some g) =
      if (unflag g : Int) - ts.firstgid < 0 then (none, ts)
      else
        (some
          { (cacheGet ts.tileproperties ((unflag g : Int) - ts.firstgid)).getD defaultTileProps with
            flippedX := some (g &&& FLAGS_FlippedX)
            flippedY := some (g &&& FLAGS_FlippedY)
            rotatedCW := some (g &&& FLAGS_RotatedCW) },
         { ts with
           tileproperties :=
             cacheSet ts.tileproperties ((unflag g : Int) - ts.firstgid)
               { (cacheGet ts.tileproperties ((unflag g : Int) - ts.firstgid)).getD defaultTileProps with
                 flippedX := some (g &&& FLAGS_FlippedX)
                 flippedY := some (g &&& FLAGS_FlippedY)
                 rotatedCW := some (g &&& FLAGS_RotatedCW) } }) := rfl

/-- Demo tileset descriptor: firstgid 1 over a 64x64 atlas of 32x32
tiles, hence a 2x2 grid owning gids 1 to 4, with no authored tile
properties. -/
def demoSettings : TilesetSettings :=
  { firstgid := 1, name := "d", tilewidth := 32, tileheight := 32 }

/-- Demo 64x64 atlas image. -/
def demoImg : Image := { width := 64, height := 64 }

/-- Demo constructed tileset (2x2 grid, gids 1 to 4). -/
def tsDemo : Tileset := buildTilesetCore demoImg demoSettings

/-- C5: querying an unauthored local index returns the default record
(collidable false, breakable false, type NONE) carrying the flag masks
of the queried gid, and a second query with the same raw id but
arbitrary other flag bits returns the same collidable/breakable/type
values together with the flags of the new query. -/
theorem c5_default_properties (ts : Tileset) (g g' : Nat)
    (hge : ts.firstgid ≤ (unflag g : Int))
    (hun : cacheGet ts.tileproperties ((unflag g : Int) - ts.firstgid) = none)
    (hsame : unflag g' = unflag g) :
    (ts.getTileProperties (some g)).1 =
      some { defaultTileProps with
             flippedX := some (g &&& FLAGS_FlippedX)
             flippedY := some (g &&& FLAGS_FlippedY)
             rotatedCW := some (g &&& FLAGS_RotatedCW) } ∧
    (((ts.getTileProperties (some g)).2).getTileProperties (some g')).1 =
      some { defaultTileProps with
             flippedX := some (g' &&& FLAGS_FlippedX)
             flippedY := some (g' &&& FLAGS_FlippedY)
             rotatedCW := some (g' &&& FLAGS_RotatedCW) } := by
  have hneg : ¬ ((unflag g : Int) - ts.firstgid < 0) := by omega
  rw [getTileProperties_some, if_neg hneg]
  constructor
  · simp [hun]
  · rw [getTileProperties_some]
    simp only [hsame]
    rw [if_neg hneg]
    simp [cacheGet_cacheSet_self, hun, defaultTileProps]

/-- Witness for C5 on the demo tileset: raw id 1 queried first with
FlippedX set, then with FlippedY set. -/
theorem c5_default_properties_witness :
    tsDemo.firstgid ≤ (unflag 2147483649 : Int) ∧
    cacheGet tsDemo.tileproperties ((unflag 2147483649 : Int) - tsDemo.firstgid) = none ∧
    unflag 1073741825 = unflag 2147483649 ∧
    ((tsDemo.getTileProperties (some 2147483649)).1 =
      some { defaultTileProps with
             flippedX := some (2147483649 &&& FLAGS_FlippedX)
             flippedY := some (2147483649 &&& FLAGS_FlippedY)
             rotatedCW := some (2147483649 &&& FLAGS_RotatedCW) } ∧
    (((tsDemo.getTileProperties (some 2147483649)).2).getTileProperties (some 1073741825)).1 =
      some { defaultTileProps with
             flippedX := some (1073741825 &&& FLAGS_FlippedX)
             flippedY := some (1073741825 &&& FLAGS_FlippedY)
             rotatedCW := some (1073741825 &&& FLAGS_RotatedCW) }) := by
  refine ⟨by decide, by decide, by decide, ?_⟩
  exact c5_default_properties tsDemo 2147483649 1073741825 (by decide) (by decide) (by decide)

/-- Counterexample to C6 as stated: on the demo tileset (gids 1 to 4),
gid 5 is defined and its unflagged value 5 is not below firstgid 1, yet
getTileTexture returns none, because reading the texture array past its
end yields undefined; so getTileTexture does return a miss for gids
above lastgid. -/
theorem c6_getTileTexture_counterexample :
    tsDemo.getTileTexture (some 5) = none ∧
    tsDemo.firstgid ≤ (unflag 5 : Int) ∧ tsDemo.lastgid < (unflag 5 : Int) := by
  refine ⟨by decide, by decide, by decide⟩

/-- C6 (amended): the explicit ownership guard of getTileProperties and
getTileTexture is one-sided (it only rejects gids below firstgid; for
getTileProperties the result is none exactly when the gid is undefined
or its unflagged value is below firstgid).  Hence for any gid above the
range of a tileset whose texture list has the constructed length,
contains is false while getTileProperties synthesizes, returns and
caches a default record; getTileTexture nevertheless yields none there,
by falling off the end of the texture array rather than by the guard. -/
theorem c6_one_sided_ownership (ts : Tileset) (g : Nat)
    (hge : ts.firstgid ≤ (unflag g : Int))
    (hgt : ts.lastgid < (unflag g : Int))
    (hun : cacheGet ts.tileproperties ((unflag g : Int) - ts.firstgid) = none)
    (hlen : (ts.textures.length : Int) = ts.lastgid + 1 - ts.firstgid) :
    ts.contains (some g) = false ∧
    (ts.getTileProperties (some g)).1 =
      some { defaultTileProps with
             flippedX := some (g &&& FLAGS_FlippedX)
             flippedY := some (g &&& FLAGS_FlippedY)
             rotatedCW := some (g &&& FLAGS_RotatedCW) } ∧
    cacheGet ((ts.getTileProperties (some g)).2).tileproperties
        ((unflag g : Int) - ts.firstgid) =
      some { defaultTileProps with
             flippedX := some (g &&& FLAGS_FlippedX)
             flippedY := some (g &&& FLAGS_FlippedY)
             rotatedCW := some (g &&& FLAGS_RotatedCW) } ∧
    ts.getTileTexture (some g) = none ∧
    (∀ ts' : Tileset, ∀ g' : Nat,
      ((Tileset.getTileProperties ts' (some g')).1 = none ↔ (unflag g' : Int) < ts'.firstgid) ∧
      (Tileset.getTileProperties ts' none).1 = none) := by
  have hneg : ¬ ((unflag g : Int) - ts.firstgid < 0) := by omega
  refine ⟨?_, ?_, ?_, ?_, ?_⟩
  · simp only [Tileset.contains, Bool.and_eq_false_iff, decide_eq_false_iff_not, not_le]
    right
    omega
  · rw [getTileProperties_some, if_neg hneg]
    simp [hun]
  · rw [getTileProperties_some, if_neg hneg]
    simp [cacheGet_cacheSet_self, hun]
  · simp only [Tileset.getTileTexture, if_neg hneg]
    apply List.getElem?_eq_none
    omega
  · intro ts' g'
    constructor
    · by_cases hlt : (unflag g' : Int) - ts'.firstgid < 0
      · rw [getTileProperties_some, if_pos hlt]
        simp
        omega
      · rw [getTileProperties_some, if_neg hlt]
        simp
        omega
    · rfl

/-- Witness for C6 on the demo tileset at gid 5 (just above lastgid 4). -/
theorem c6_one_sided_ownership_witness :
    tsDemo.firstgid ≤ (unflag 5 : Int) ∧
    tsDemo.lastgid < (unflag 5 : Int) ∧
    cacheGet tsDemo.tileproperties ((unflag 5 : Int) - tsDemo.firstgid) = none ∧
    (tsDemo.textures.length : Int) = tsDemo.lastgid + 1 - tsDemo.firstgid ∧
    (tsDemo.contains (some 5) = false ∧
      (tsDemo.getTileProperties (some 5)).1 =
        some { defaultTileProps with
               flippedX := some (5 &&& FLAGS_FlippedX)
               flippedY := some (5 &&& FLAGS_FlippedY)
               rotatedCW := some (5 &&& FLAGS_RotatedCW) } ∧
      cacheGet ((tsDemo.getTileProperties (some 5)).2).tileproperties
          ((unflag 5 : Int) - tsDemo.firstgid) =
        some { defaultTileProps with
               flippedX := some (5 &&& FLAGS_FlippedX)
               flippedY := some (5 &&& FLAGS_FlippedY)
               rotatedCW := some (5 &&& FLAGS_RotatedCW) } ∧
      tsDemo.getTileTexture (some 5) = none ∧
      (∀ ts' : Tileset, ∀ g' : Nat,
        ((Tileset.getTileProperties ts' (some g')).1 = none ↔ (unflag g' : Int) < ts'.firstgid) ∧
        (Tileset.getTileProperties ts' none).1 = none)) := by
  refine ⟨by decide, by decide, by decide, by decide, ?_⟩
  exact c6_one_sided_ownership tsDemo 5 (by decide) (by decide) (by decide) (by decide)

/-- Counterexample to C7 as stated: after a getTileProperties call the
cache entry does carry the flip/rotate values of that call, so two
queries of the same raw id 1 differing only in the FlippedX bit leave
observably different cache entries. -/
theorem c7_cache_counterexample :
    cacheGet ((tsDemo.getTileProperties (some 2147483649)).2).tileproperties 0 ≠
    cacheGet ((tsDemo.getTileProperties (some 1)).2).tileproperties 0 := by decide

/-- C7 (amended): the flip/rotate fields are per-call in the sense that
every call overwrites them on the cache entry with the flag masks of the current
gid: after a call on an owned gid, the cache entry at the
queried local index is the prior record (or the default on a miss) with
its collidable/breakable/type values unchanged by the flag bits of the query
and its flip/rotate fields set from the current query. -/
theorem c7_flags_overwritten_per_call (ts : Tileset) (g : Nat)
    (hge : ts.firstgid ≤ (unflag g : Int)) :
    cacheGet ((ts.getTileProperties (some g)).2).tileproperties
        ((unflag g : Int) - ts.firstgid) =
      some { (cacheGet ts.tileproperties ((unflag g : Int) - ts.firstgid)).getD defaultTileProps with
             flippedX := some (g &&& FLAGS_FlippedX)
             flippedY := some (g &&& FLAGS_FlippedY)
             rotatedCW := some (g &&& FLAGS_RotatedCW) } := by
  have hneg : ¬ ((unflag g : Int) - ts.firstgid < 0) := by omega
  rw [getTileProperties_some, if_neg hneg]
  simp [cacheGet_cacheSet_self]

/-- Witness for C7 on the demo tileset at gid 1 with FlippedX set. -/
theorem c7_flags_overwritten_per_call_witness :
    tsDemo.firstgid ≤ (unflag 2147483649 : Int) ∧
    cacheGet ((tsDemo.getTileProperties (some 2147483649)).2).tileproperties
        ((unflag 2147483649 : Int) - tsDemo.firstgid) =
      some { (cacheGet tsDemo.tileproperties ((unflag 2147483649 : Int) - tsDemo.firstgid)).getD
                defaultTileProps with
             flippedX := some (2147483649 &&& FLAGS_FlippedX)
             flippedY := some (2147483649 &&& FLAGS_FlippedY)
             rotatedCW := some (2147483649 &&& FLAGS_RotatedCW) } := by
  refine ⟨by decide, ?_⟩
  exact c7_flags_overwritten_per_call tsDemo 2147483649 (by decide)

/-- A layer descriptor of the map document; only the type discriminator
drives the dispatch, the payload is carried along unused. -/
structure LayerSettings where
  type : String
  name : String := ""
deriving DecidableEq

/-- A constructed layer node.  The internal bodies of gf.TiledLayer,
gf.TiledObjectGroup and gf.ImageLayer are excluded collaborators; each
node carries its descriptor and its variant records which factory the
dispatch chose (TiledMap.js lines 104-116). -/
inductive LayerNode where
  | tilelayer (settings : LayerSettings)
  | objectgroup (settings : LayerSettings)
  | imagelayer (settings : LayerSettings)
deriving DecidableEq

/-- Layer dispatch on the closed type tag (the switch of TiledMap.js
lines 104-116): an unrecognized tag leaves the layer variable
undefined, embedded as none. -/
def makeLayerNode (l : LayerSettings) : Option LayerNode :=
  if l.type = "tilelayer" then some (LayerNode.tilelayer l)
  else if l.type = "objectgroup" then some (LayerNode.objectgroup l)
  else if l.type = "imagelayer" then some (LayerNode.imagelayer l)
  else none

/-- Modelled from the spec: addChild of the external display-tree base
class (the scene graph is an excluded collaborator) appends the node;
per the lenient-decode policy an undefined node yields no child. -/
def addChild (children : List LayerNode) : Option LayerNode → List LayerNode
  | some n => children ++ [n]
  | none => children

/-- The layer loop of the TiledMap constructor (TiledMap.js lines
101-119): dispatch each descriptor in order and add the result. -/
def buildChildren (layers : List LayerSettings) : List LayerNode :=
  layers.foldl (fun cs l => addChild cs (makeLayerNode l)) []

/-- The map description (already parsed document).  The width and
height fields are modelled from the spec: the gf.Map base class (not
under src/) reads the map width and height in tiles into this.size. -/
structure MapSettings where
  tilewidth : ℚ
  tileheight : ℚ
  width : ℚ
  height : ℚ
  orientation : String := ""
  version : ℚ := 0
  backgroundColor : String := ""
  properties : Option (List (String × String)) := none
  tilesets : List TilesetSettings := []
  layers : List LayerSettings := []
deriving DecidableEq

/-- The constructed map state (gf.TiledMap).  The scale vector holds
the same coerced property value in both components; scaledTileSize and
realSize use none for a NaN component. -/
structure TiledMap where
  properties : List (String × PropVal)
  scale : PropVal × PropVal
  tileSize : ℚ × ℚ
  orientation : String
  version : ℚ
  backgroundColor : String
  tilesets : List Tileset
  scaledTileSize : Option ℚ × Option ℚ
  realSize : Option ℚ × Option ℚ
  size : ℚ × ℚ
  children : List LayerNode
deriving DecidableEq

/-- Lookup of a key in the coerced property mapping (JS object field
access, undefined when absent). -/
def lookupProp : List (String × PropVal) → String → Option PropVal
  | [], _ => none
  | p :: rest, k => if p.1 = k then some p.2 else lookupProp rest k

/-- JS multiplication of a number by a coerced property value: the
value is coerced to a number first, and a NaN operand (none) makes the
product NaN. -/
def jsMul (a : ℚ) (v : PropVal) : Option ℚ := (toNumber v).map (fun q => a * q)

/-- The tileset loop of the TiledMap constructor (TiledMap.js lines
97-99): each iteration may throw, which aborts the whole loop. -/
def buildTilesets (assetCache : String → Option Image) :
    List TilesetSettings → Except String (List Tileset)
  | [] => Except.ok []
  | s :: rest =>
    match buildTileset assetCache s with
    | Except.error e => Except.error e
    | Except.ok t =>
      match buildTilesets assetCache rest with
      | Except.error e => Except.error e
      | Except.ok ts => Except.ok (t :: ts)

/-- The TiledMap constructor (TiledMap.js lines 14-122). -/
def buildTiledMap (assetCache : String → Option Image) (m : MapSettings) :
    Except String TiledMap :=
  let props := (parseTiledProperties m.properties).getD []
  let scaleV := jsOr (lookupProp props "scale") (PropVal.pnum 1)
  let scaledTS := (jsMul m.tilewidth scaleV, jsMul m.tileheight scaleV)
  let realS := ((scaledTS.1).map (fun q => m.width * q),
                (scaledTS.2).map (fun q => m.height * q))
  match buildTilesets assetCache m.tilesets with
  | Except.error e => Except.error e
  | Except.ok tilesets =>
    Except.ok
      { properties := props
        scale := (scaleV, scaleV)
        tileSize := (m.tilewidth, m.tileheight)
        orientation := m.orientation
        version := m.version
        backgroundColor := m.backgroundColor
        tilesets := tilesets
        scaledTileSize := scaledTS
        realSize := realS
        size := (m.width, m.height)
        children := buildChildren m.layers }

/-- First tileset of the list whose range contains the gid
(TiledMap.js lines 132-136); undefined when none does. -/
def getTilesetList : List Tileset → Option Nat → Option Tileset
  | [], _ => none
  | t :: rest, g => if t.contains g then some t else getTilesetList rest g

/-- The getTileset method of the map. -/
def TiledMap.getTileset (m : TiledMap) (tileId : Option Nat) : Option Tileset :=
  getTilesetList m.tilesets tileId

/-- Success test of an embedded fallible construction. -/
def isOkE {α : Type} : Except String α → Bool
  | Except.ok _ => true
  | Except.error _ => false

/-- The tileset loop succeeds exactly when every named atlas is in the
asset cache. -/
theorem buildTilesets_isOk (assetCache : String → Option Image)
    (l : List TilesetSettings) :
    isOkE (buildTilesets assetCache l)
      = l.all (fun t => (assetCache (t.name ++ "_texture")).isSome) := by
  induction l with
  | nil => rfl
  | cons s rest ih =>
    simp only [buildTilesets, List.all_cons]
    cases hc : assetCache (s.name ++ "_texture") with
    | none => simp [buildTileset, hc, isOkE]
    | some img =>
      simp only [buildTileset, hc, Option.isSome_some, Bool.true_and]
      cases hr : buildTilesets assetCache rest with
      | error e => rw [hr] at ih; simpa [isOkE] using ih
      | ok ts => rw [hr] at ih; simpa [isOkE] using ih

/-- C8: tileset construction fails exactly when the asset cache lacks
the entry under tilesetName_texture (and the failure is the thrown
MissingAssetError, so no tileset state is produced); map construction
in turn succeeds exactly when every tileset of the description finds
its atlas, so one failed tileset build aborts the whole map build. -/
theorem c8_missing_asset_aborts (assetCache : String → Option Image)
    (s : TilesetSettings) (m : MapSettings) :
    (isOkE (buildTileset assetCache s)
      = (assetCache (s.name ++ "_texture")).isSome) ∧
    (isOkE (buildTiledMap assetCache m)
      = m.tilesets.all (fun t => (assetCache (t.name ++ "_texture")).isSome)) := by
  constructor
  · cases hc : assetCache (s.name ++ "_texture") with
    | none => simp [buildTileset, hc, isOkE]
    | some img => simp [buildTileset, hc, isOkE]
  · rw [← buildTilesets_isOk]
    simp only [buildTiledMap]
    cases hr : buildTilesets assetCache m.tilesets with
    | error e => simp [isOkE]
    | ok ts => simp [isOkE]

/-- Demo map description with no tilesets and 32x32 tiles on a 4x4 grid. -/
def demoMapSettings : MapSettings :=
  { tilewidth := 32, tileheight := 32, width := 4, height := 4 }

/-- C1: a layer descriptor whose type tag is not tilelayer, objectgroup
or imagelayer contributes no layer node and raises no error: the map
built with such a descriptor anywhere in the layer list equals the map
built without it, other layers intact. -/
theorem c1_unknown_layer_skipped (assetCache : String → Option Image)
    (m : MapSettings) (pre post : List LayerSettings) (bad : LayerSettings)
    (h1 : bad.type ≠ "tilelayer") (h2 : bad.type ≠ "objectgroup")
    (h3 : bad.type ≠ "imagelayer") :
    buildTiledMap assetCache { m with layers := pre ++ bad :: post } =
    buildTiledMap assetCache { m with layers := pre ++ post } := by
  have hnone : makeLayerNode bad = none := by
    simp [makeLayerNode, h1, h2, h3]
  have hch : buildChildren (pre ++ bad :: post) = buildChildren (pre ++ post) := by
    simp only [buildChildren, List.foldl_append, List.foldl_cons, hnone, addChild]
  simp only [buildTiledMap]
  rw [hch]

/-- Witness for C1: inserting a layer of type fancy after a tile layer
leaves the built map unchanged. -/
theorem c1_unknown_layer_skipped_witness :
    ({ type := "fancy" } : LayerSettings).type ≠ "tilelayer" ∧
    ({ type := "fancy" } : LayerSettings).type ≠ "objectgroup" ∧
    ({ type := "fancy" } : LayerSettings).type ≠ "imagelayer" ∧
    buildTiledMap (fun _ => none)
        { demoMapSettings with
          layers := [{ type := "tilelayer" }] ++ { type := "fancy" } :: [] } =
      buildTiledMap (fun _ => none)
        { demoMapSettings with layers := [{ type := "tilelayer" }] ++ [] } := by
  refine ⟨by decide, by decide, by decide, ?_⟩
  exact c1_unknown_layer_skipped (fun _ => none) demoMapSettings
    [{ type := "tilelayer" }] [] { type := "fancy" }
    (by decide) (by decide) (by decide)

/-- Boolean ownership test spelled out as the two range bounds. -/
theorem contains_eq_true_iff (ts : Tileset) (g : Nat) :
    ts.contains (some g) = true ↔
      ts.firstgid ≤ (unflag g : Int) ∧ (unflag g : Int) ≤ ts.lastgid := by
  simp [Tileset.contains]

/-- The linear scan over pairwise non-overlapping tilesets finds
exactly the owning tileset, and reports a miss when none owns the gid. -/
theorem getTilesetList_disjoint (l : List Tileset) (g : Nat)
    (hdisj : l.Pairwise (fun a b => a.lastgid < b.firstgid ∨ b.lastgid < a.firstgid)) :
    (∀ ts, ts ∈ l → ts.contains (some g) = true → getTilesetList l (some g) = some ts) ∧
    ((∀ ts, ts ∈ l → ts.contains (some g) = false) → getTilesetList l (some g) = none) := by
  induction l with
  | nil => exact ⟨fun ts h => (nomatch h), fun _ => rfl⟩
  | cons t rest ih =>
    obtain ⟨hd, hrest⟩ := List.pairwise_cons.mp hdisj
    have ihh := ih hrest
    constructor
    · intro ts hmem hc
      rcases List.mem_cons.mp hmem with rfl | hmem'
      · simp [getTilesetList, hc]
      · have htf : t.contains (some g) = false := by
          cases hct : t.contains (some g) with
          | false => rfl
          | true =>
            exfalso
            have h1 := (contains_eq_true_iff t g).mp hct
            have h2 := (contains_eq_true_iff ts g).mp hc
            rcases hd ts hmem' with h | h <;> omega
        simp only [getTilesetList, htf, Bool.false_eq_true, if_false]
        exact ihh.1 ts hmem' hc
    · intro hall
      have htf := hall t (List.mem_cons_self t rest)
      simp only [getTilesetList, htf, Bool.false_eq_true, if_false]
      exact ihh.2 (fun ts h => hall ts (List.mem_cons_of_mem t h))

/-- C3: on a map whose tilesets have pairwise non-overlapping gid
ranges, getTileset returns exactly the tileset whose range contains the
unflagged gid, and none when no tileset owns it. -/
theorem c3_getTileset_partition (mp : TiledMap) (g : Nat)
    (hdisj : mp.tilesets.Pairwise
      (fun a b => a.lastgid < b.firstgid ∨ b.lastgid < a.firstgid)) :
    (∀ ts, ts ∈ mp.tilesets → ts.contains (some g) = true →
      mp.getTileset (some g) = some ts) ∧
    ((∀ ts, ts ∈ mp.tilesets → ts.contains (some g) = false) →
      mp.getTileset (some g) = none) := by
  exact getTilesetList_disjoint mp.tilesets g hdisj

/-- Demo asset cache for the two-tileset scenario: atlas a is 128x128
(16 tiles of 32x32), atlas b is 128x64 (8 tiles of 32x32). -/
def demoCacheAB : String → Option Image :=
  fun k =>
    if k = "a_texture" then some { width := 128, height := 128 }
    else if k = "b_texture" then some { width := 128, height := 64 }
    else none

/-- Demo two-tileset map description: tileset a with firstgid 1 and 16
tiles (lastgid 16), tileset b with firstgid 17 and 8 tiles (lastgid 24). -/
def demoMapABSettings : MapSettings :=
  { tilewidth := 32, tileheight := 32, width := 4, height := 4,
    tilesets := [
      { firstgid := 1, name := "a", tilewidth := 32, tileheight := 32 },
      { firstgid := 17, name := "b", tilewidth := 32, tileheight := 32 }] }

/-- Fallback map used only to destructure a build result. -/
def fallbackMap : TiledMap :=
  { properties := [], scale := (PropVal.pnum 1, PropVal.pnum 1), tileSize := (0, 0),
    orientation := "", version := 0, backgroundColor := "", tilesets := [],
    scaledTileSize := (none, none), realSize := (none, none), size := (0, 0),
    children := [] }

/-- Value of a successful map build, with a fallback for the error case. -/
def okOr (e : Except String TiledMap) (d : TiledMap) : TiledMap :=
  match e with
  | Except.ok mp => mp
  | Except.error _ => d

/-- The demo two-tileset map, fully constructed. -/
def demoMapAB : TiledMap := okOr (buildTiledMap demoCacheAB demoMapABSettings) fallbackMap

/-- The constructed demo tileset b (firstgid 17, lastgid 24). -/
def tsB : Tileset :=
  buildTilesetCore { width := 128, height := 64 }
    { firstgid := 17, name := "b", tilewidth := 32, tileheight := 32 }

/-- Witness for C3 on the demo two-tileset map: gid 17 resolves to
tileset b and gid 25 resolves to none. -/
theorem c3_getTileset_partition_witness :
    demoMapAB.tilesets.Pairwise
      (fun a b => a.lastgid < b.firstgid ∨ b.lastgid < a.firstgid) ∧
    tsB ∈ demoMapAB.tilesets ∧ tsB.contains (some 17) = true ∧
    demoMapAB.getTileset (some 17) = some tsB ∧
    (∀ ts, ts ∈ demoMapAB.tilesets → ts.contains (some 25) = false) ∧
    demoMapAB.getTileset (some 25) = none := by
  refine ⟨by decide, by decide, by decide, ?_, by decide, ?_⟩
  · exact (c3_getTileset_partition demoMapAB 17 (by decide)).1 tsB (by decide) (by decide)
  · exact (c3_getTileset_partition demoMapAB 25 (by decide)).2 (by decide)

/-- Map description carrying a non-numeric truthy scale property. -/
def scaleStrMapSettings : MapSettings :=
  { tilewidth := 32, tileheight := 32, width := 10, height := 10,
    properties := some [("scale", "abc")] }

/-- Counterexample to C10 as stated: with the non-numeric scale
property abc, the scale guard keeps the truthy string instead of
defaulting to 1, so realSize is NaN in both dimensions rather than
mapSize times tileSize times 1. -/
theorem c10_realsize_counterexample :
    (buildTiledMap (fun _ => none) scaleStrMapSettings).map (fun mp => mp.realSize) =
      Except.ok ((none : Option ℚ), (none : Option ℚ)) ∧
    ((none : Option ℚ), (none : Option ℚ)) ≠
      (some ((10 : ℚ) * 32 * 1), some ((10 : ℚ) * 32 * 1)) := by
  constructor
  · rfl
  · decide

/-- C10 (amended): whenever the coerced scale property combined with
the OR-1 default yields a number q (that is, the property is absent or
otherwise falsy, giving q = 1, or it parses to a nonzero number q), the
constructed map satisfies realSize = mapSize * tileSize * q in each
dimension; a present truthy non-numeric scale instead propagates NaN
into realSize. -/
theorem c10_realsize_scaled (assetCache : String → Option Image) (m : MapSettings)
    (mp : TiledMap) (q : ℚ)
    (h : buildTiledMap assetCache m = Except.ok mp)
    (hq : jsOr (lookupProp ((parseTiledProperties m.properties).getD []) "scale")
            (PropVal.pnum 1) = PropVal.pnum q) :
    mp.realSize = (some (m.width * m.tilewidth * q), some (m.height * m.tileheight * q)) := by
  simp only [buildTiledMap] at h
  rw [hq] at h
  cases hr : buildTilesets assetCache m.tilesets with
  | error e => rw [hr] at h; cases h
  | ok ts =>
    rw [hr] at h
    injection h with h2
    subst h2
    simp [jsMul, toNumber, mul_assoc]

/-- Map description whose scale property is the numeric string 2. -/
def scaleTwoMapSettings : MapSettings :=
  { tilewidth := 32, tileheight := 32, width := 10, height := 10,
    properties := some [("scale", "2")] }

/-- Witness for C10 on the map scaled by 2: realSize is 10 * 32 * 2 in
each dimension. -/
theorem c10_realsize_scaled_witness :
    buildTiledMap (fun _ => none) scaleTwoMapSettings =
      Except.ok (okOr (buildTiledMap (fun _ => none) scaleTwoMapSettings) fallbackMap) ∧
    jsOr (lookupProp ((parseTiledProperties scaleTwoMapSettings.properties).getD []) "scale")
        (PropVal.pnum 1) = PropVal.pnum ((2 : ℕ) : ℚ) ∧
    (okOr (buildTiledMap (fun _ => none) scaleTwoMapSettings) fallbackMap).realSize =
      (some (scaleTwoMapSettings.width * scaleTwoMapSettings.tilewidth * ((2 : ℕ) : ℚ)),
       some (scaleTwoMapSettings.height * scaleTwoMapSettings.tileheight * ((2 : ℕ) : ℚ))) := by
  refine ⟨by rfl, by decide, ?_⟩
  exact c10_realsize_scaled (fun _ => none) scaleTwoMapSettings _ ((2 : ℕ) : ℚ)
    (by rfl) (by decide)

end Grapefruit
